import Mathlib

/-!
Shallow embedding of the finance tracker's core (src/App.tsx, src/types.ts):
the billing-cycle calculation, installment materializer (`handleSaveTransaction`,
add mode), monthly summary, status toggle, and the transaction form's submit
normalization (`TransactionForm.handleSubmit`).

Dates are modelled as a pair of an absolute month index (year * 12 + zero-based
month-of-year) and a day-of-month.  JavaScript's `new Date(y, m, d)` normalizes
an out-of-range day by rolling into following months; `date-fns`' `addMonths`
lands in exactly the target month, clamping the day to that month's length.
Monetary amounts are modelled as rationals.  `uuidv4` is modelled by a counter
`c`: the k-th call made during one save returns the identifier `c + k`.
-/

namespace FinApp

/-- Gregorian leap-year rule, used by day-of-month normalization. -/
def isLeapYear (y : Nat) : Bool :=
  (y % 4 == 0 && y % 100 != 0) || y % 400 == 0

/-- Number of days of the month with absolute index `μ` (year `μ / 12`,
zero-based month-of-year `μ % 12`). -/
def daysInMonth (μ : Nat) : Nat :=
  let m := μ % 12
  if m = 1 then (if isLeapYear (μ / 12) then 29 else 28)
  else if m = 3 ∨ m = 5 ∨ m = 8 ∨ m = 10 then 30
  else 31

theorem daysInMonth_pos (μ : Nat) : 0 < daysInMonth μ := by
  unfold daysInMonth
  dsimp only
  split
  · split <;> omega
  · split <;> omega

theorem le_daysInMonth (μ : Nat) : 28 ≤ daysInMonth μ := by
  unfold daysInMonth
  dsimp only
  split
  · split <;> omega
  · split <;> omega

/-- A calendar date: absolute month index and day-of-month. -/
structure Date where
  month : Nat
  day : Nat
deriving DecidableEq, Repr

/-- Day-of-month normalization loop: roll the excess days into following
months.  Each roll removes at least 28 days, so `d` itself is enough fuel. -/
def mkDateAux : Nat → Nat → Nat → Date
  | 0, μ, d => ⟨μ, d⟩
  | fuel + 1, μ, d =>
      if d ≤ daysInMonth μ then ⟨μ, d⟩
      else mkDateAux fuel (μ + 1) (d - daysInMonth μ)

/-- `new Date(year-of μ, month-of μ, d)` for `1 ≤ d`: if `d` exceeds the length
of month `μ`, JavaScript rolls the excess into the following month(s). -/
def mkDate (μ : Nat) (d : Nat) : Date :=
  mkDateAux d μ d

theorem mkDate_of_le {μ d : Nat} (h : d ≤ daysInMonth μ) : mkDate μ d = ⟨μ, d⟩ := by
  cases d with
  | zero => rfl
  | succ n => simp [mkDate, mkDateAux, h]

/-- `date-fns` `addMonths`: the result is in exactly the month `n` months
later, with the day clamped to that month's length. -/
def addMonths (x : Date) (n : Nat) : Date :=
  ⟨x.month + n, min x.day (daysInMonth (x.month + n))⟩

/-- Lexicographic order on dates (month, then day), mirroring comparison of
the underlying time values. -/
def dateLe (x y : Date) : Bool :=
  x.month < y.month || (x.month == y.month && x.day ≤ y.day)

inductive TransactionType where
  | INCOME
  | EXPENSE
deriving DecidableEq, Repr

inductive PaymentMethod where
  | CASH_DEBIT
  | CREDIT_CARD
deriving DecidableEq, Repr

inductive TransactionStatus where
  | PENDING
  | COMPLETED
deriving DecidableEq, Repr

structure CreditCard where
  id : String
  name : String
  limit : ℚ
  closingDay : Nat
  dueDay : Nat
deriving DecidableEq, Repr

/-- The optional `installments` metadata of a transaction. -/
structure Installments where
  current : Nat
  total : Nat
  originalTransactionId : Option Nat
deriving DecidableEq, Repr

/-- A ledger record (src/types.ts `Transaction`).  `id` and
`installments.originalTransactionId` carry counter-modelled uuids. -/
structure Transaction where
  id : Nat
  description : String
  amount : ℚ
  type : TransactionType
  status : TransactionStatus
  date : Date
  purchaseDate : Date
  user : String
  paymentMethod : PaymentMethod
  categoryId : Option String
  accountId : Option String
  cardId : Option String
  installments : Option Installments
deriving DecidableEq, Repr

/-- The argument of `handleSaveTransaction` in add mode: a partial transaction
plus the installment controls.  `Option` marks fields that may be absent
(JavaScript `undefined`); defaulting mirrors the source's destructuring and
`||` fallbacks. -/
structure SaveRequest where
  type : Option TransactionType
  description : Option String
  amount : Option ℚ
  date : Option Date
  status : Option TransactionStatus
  paymentMethod : Option PaymentMethod
  cardId : Option String
  accountId : Option String
  categoryId : Option String
  installmentCount : Option Nat
  isTotalValue : Option Bool
  targetInvoiceDate : Option Date
deriving DecidableEq, Repr

/-- JavaScript truthiness of an optional string: `undefined` and `''` are
falsy, every other string is truthy. -/
def truthyStr : Option String → Bool
  | none => false
  | some s => !(s == "")

/-- The default starting-invoice computation of `handleSaveTransaction`
(lines 250-257): start from the purchase date and move one month later when
the purchase day is on or after the card's closing day. -/
def defaultStartMonth (purchaseDate : Date) (closingDay : Nat) : Date :=
  if purchaseDate.day ≥ closingDay then addMonths purchaseDate 1 else purchaseDate

/-- The due date of 0-based installment `i` (lines 264-265): add `i` months to
the starting invoice date, then rebuild the date with the card's due day. -/
def dueDateOfInstallment (startInvoiceDate : Date) (dueDay : Nat) (i : Nat) : Date :=
  let targetMonth := addMonths startInvoiceDate i
  mkDate targetMonth.month dueDay

/-- The ordered due dates of the `count` installments, as produced by the
materializer's loop. -/
def enumerateDueDates (startInvoiceDate : Date) (dueDay : Nat) (count : Nat) : List Date :=
  (List.range count).map (dueDateOfInstallment startInvoiceDate dueDay)

/-- The starting invoice date of the credit branch (lines 243-259): the
override month when `targetInvoiceDate` was supplied, the default computation
otherwise; either way the day is rebuilt from the card's due day. -/
def creditStartInvoiceDate (card : CreditCard) (purchaseDate : Date)
    (targetInvoiceDate : Option Date) : Date :=
  match targetInvoiceDate with
  | some selectedMonth => mkDate selectedMonth.month card.dueDay
  | none => mkDate (defaultStartMonth purchaseDate card.closingDay).month card.dueDay

/-- The record pushed by iteration `i` of the credit-branch loop
(lines 263-285).  `c` is the uuid counter at loop entry: iteration 0 consumes
two uuids (`id` then `originalTransactionId`), every later iteration one. -/
def installmentRecord (card : CreditCard) (r : SaveRequest) (purchaseDate : Date)
    (txStatus : TransactionStatus) (txUser : String) (monthlyAmount : ℚ)
    (startInvoiceDate : Date) (installmentCount : Nat) (c : Nat) (i : Nat) :
    Transaction :=
  { id := if i = 0 then c else c + i + 1
    description :=
      if installmentCount > 1 then
        r.description.getD "" ++ " (" ++ toString (i + 1) ++ "/" ++
          toString installmentCount ++ ")"
      else r.description.getD ""
    amount := monthlyAmount
    type := TransactionType.EXPENSE
    status := txStatus
    date := dueDateOfInstallment startInvoiceDate card.dueDay i
    purchaseDate := purchaseDate
    user := txUser
    paymentMethod := PaymentMethod.CREDIT_CARD
    categoryId := r.categoryId
    accountId := none
    cardId := r.cardId
    installments := some ⟨i + 1, installmentCount,
      if i = 0 then some (c + 1) else none⟩ }

/-- The single record pushed by the cash/debit branch (lines 287-302). -/
def cashRecord (now : Date) (currentUser : Option String) (c : Nat)
    (r : SaveRequest) : Transaction :=
  { id := c
    description := r.description.getD ""
    amount := r.amount.getD 0
    type := r.type.getD TransactionType.EXPENSE
    status := r.status.getD TransactionStatus.COMPLETED
    date := r.date.getD now
    purchaseDate := r.date.getD now
    user := currentUser.getD "Steffany"
    paymentMethod := PaymentMethod.CASH_DEBIT
    categoryId := r.categoryId
    accountId := r.accountId
    cardId := none
    installments := none }

/-- The installment-materializer branch of `handleSaveTransaction` (add mode,
lines 232-302): the list `transactionsToAdd`.  `now` stands for `new Date()`,
`currentUser` for the logged-in profile, and `c` for the uuid counter. -/
def materialize (cards : List CreditCard) (now : Date) (currentUser : Option String)
    (c : Nat) (r : SaveRequest) : List Transaction :=
  let baseAmount := r.amount.getD 0
  let purchaseDate := r.date.getD now
  let txUser := currentUser.getD "Steffany"
  let txStatus := r.status.getD TransactionStatus.COMPLETED
  let installmentCount := r.installmentCount.getD 1
  let isTotalValue := r.isTotalValue.getD true
  if r.paymentMethod == some PaymentMethod.CREDIT_CARD && truthyStr r.cardId then
    match cards.find? (fun card => some card.id == r.cardId) with
    | some card =>
        let startInvoiceDate := creditStartInvoiceDate card purchaseDate r.targetInvoiceDate
        let monthlyAmount :=
          if isTotalValue then baseAmount / (installmentCount : ℚ) else baseAmount
        (List.range installmentCount).map
          (installmentRecord card r purchaseDate txStatus txUser monthlyAmount
            startInvoiceDate installmentCount c)
    | none => []
  else
    [cashRecord now currentUser c r]

/-- `handleSaveTransaction` add mode as a ledger update: the new records are
appended to the existing transaction list. -/
def handleSaveTransactionAdd (cards : List CreditCard) (now : Date)
    (currentUser : Option String) (c : Nat) (r : SaveRequest)
    (prev : List Transaction) : List Transaction :=
  prev ++ materialize cards now currentUser c r

/-- `handleToggleStatus` (lines 326-335): flip the status of the transaction
with the given id, leave every other record as it is. -/
def handleToggleStatus (tid : Nat) (ts : List Transaction) : List Transaction :=
  ts.map fun t =>
    if t.id = tid then
      { t with status :=
          if t.status = TransactionStatus.PENDING then TransactionStatus.COMPLETED
          else TransactionStatus.PENDING }
    else t

/-- `date-fns` `isSameMonth`: same year and month. -/
def isSameMonth (a b : Date) : Bool := a.month == b.month

/-- `date-fns` `startOfMonth`. -/
def startOfMonth (a : Date) : Date := ⟨a.month, 1⟩

/-- `currentMonthTransactions` (lines 178-182): transactions whose accounting
date falls in the displayed month, sorted by date descending. -/
def currentMonthTransactions (ts : List Transaction) (currentDate : Date) :
    List Transaction :=
  (ts.filter fun t => isSameMonth t.date currentDate).mergeSort
    fun a b => dateLe b.date a.date

/-- The result shape of the `summary` memo (lines 202-207). -/
structure Summary where
  incomeReal : ℚ
  expenseReal : ℚ
  balanceReal : ℚ
  balanceProjected : ℚ
deriving DecidableEq, Repr

/-- One step of the `summary` accumulation loop (lines 190-200), over the
accumulator `(incomeReal, expenseReal, incomeProjected, expenseProjected)`. -/
def summaryStep (acc : ℚ × ℚ × ℚ × ℚ) (t : Transaction) : ℚ × ℚ × ℚ × ℚ :=
  let ip := if t.type = TransactionType.INCOME then acc.2.2.1 + t.amount else acc.2.2.1
  let ep := if t.type = TransactionType.INCOME then acc.2.2.2 else acc.2.2.2 + t.amount
  let ir := if t.status = TransactionStatus.COMPLETED ∧ t.type = TransactionType.INCOME
    then acc.1 + t.amount else acc.1
  let er := if t.status = TransactionStatus.COMPLETED ∧ t.type ≠ TransactionType.INCOME
    then acc.2.1 + t.amount else acc.2.1
  (ir, er, ip, ep)

/-- The `summary` memo (lines 184-208). -/
def summary (ts : List Transaction) (currentDate : Date) : Summary :=
  let acc := (currentMonthTransactions ts currentDate).foldl summaryStep (0, 0, 0, 0)
  { incomeReal := acc.1
    expenseReal := acc.2.1
    balanceReal := acc.1 - acc.2.1
    balanceProjected := acc.2.2.1 - acc.2.2.2 }

/-- `invoiceOptions` of `TransactionForm` (lines 1084-1106): the candidate
invoice months offered to the user. -/
def invoiceOptions (cards : List CreditCard) (paymentMethod : PaymentMethod)
    (cardId : String) (date : Date) : List Date :=
  if paymentMethod != PaymentMethod.CREDIT_CARD || cardId == "" then []
  else
    match cards.find? (fun c => c.id == cardId) with
    | none => []
    | some card =>
        let purchaseDay := date.day
        let closingDay := card.closingDay
        let baseMonth := startOfMonth date
        let baseMonth := if purchaseDay ≥ closingDay then addMonths baseMonth 1 else baseMonth
        [baseMonth, addMonths baseMonth 1, addMonths baseMonth 2]

/-- The state of `TransactionForm` at submission time (add mode). -/
structure FormState where
  type : TransactionType
  description : String
  amount : Option ℚ
  date : Date
  paymentMethod : PaymentMethod
  status : TransactionStatus
  cardId : String
  accountId : String
  categoryId : String
  installments : Nat
  isTotalValue : Bool
  targetInvoiceDate : Option Date
deriving DecidableEq, Repr

/-- `TransactionForm.handleSubmit` (lines 1114-1136, add mode): validation and
normalization before `onSubmit`; `none` means the submission is rejected.  The
amount field is modelled as its parsed numeric value, `none` for an empty
field. -/
def submitForm (f : FormState) : Option SaveRequest :=
  if f.amount == none || f.description == "" then none
  else if f.type == TransactionType.EXPENSE &&
      f.paymentMethod == PaymentMethod.CREDIT_CARD && f.cardId == "" then none
  else some
    { type := some f.type
      description := some f.description
      amount := f.amount
      date := some f.date
      status := some f.status
      categoryId := if f.categoryId == "" then none else some f.categoryId
      paymentMethod := some (if f.type = TransactionType.INCOME
        then PaymentMethod.CASH_DEBIT else f.paymentMethod)
      cardId := if f.type = TransactionType.EXPENSE ∧
          f.paymentMethod = PaymentMethod.CREDIT_CARD then some f.cardId else none
      accountId := if f.type = TransactionType.INCOME ∨
          f.paymentMethod = PaymentMethod.CASH_DEBIT then some f.accountId else none
      installmentCount := some (if f.paymentMethod = PaymentMethod.CREDIT_CARD
        then f.installments else 1)
      isTotalValue := some f.isTotalValue
      targetInvoiceDate := if f.type = TransactionType.EXPENSE ∧
          f.paymentMethod = PaymentMethod.CREDIT_CARD then f.targetInvoiceDate else none }

/-! ### Branch lemmas for the materializer -/

theorem materialize_credit_found {cards : List CreditCard} {now : Date}
    {currentUser : Option String} {c : Nat} {r : SaveRequest} {card : CreditCard}
    (hpm : r.paymentMethod = some PaymentMethod.CREDIT_CARD)
    (hcid : truthyStr r.cardId = true)
    (hfind : cards.find? (fun card => some card.id == r.cardId) = some card) :
    materialize cards now currentUser c r =
      (List.range (r.installmentCount.getD 1)).map
        (installmentRecord card r (r.date.getD now)
          (r.status.getD TransactionStatus.COMPLETED)
          (currentUser.getD "Steffany")
          (if r.isTotalValue.getD true
            then r.amount.getD 0 / ((r.installmentCount.getD 1 : Nat) : ℚ)
            else r.amount.getD 0)
          (creditStartInvoiceDate card (r.date.getD now) r.targetInvoiceDate)
          (r.installmentCount.getD 1) c) := by
  unfold materialize
  rw [hpm, hfind]
  simp [hcid]

theorem materialize_credit_notfound {cards : List CreditCard} {now : Date}
    {currentUser : Option String} {c : Nat} {r : SaveRequest}
    (hpm : r.paymentMethod = some PaymentMethod.CREDIT_CARD)
    (hcid : truthyStr r.cardId = true)
    (hfind : cards.find? (fun card => some card.id == r.cardId) = none) :
    materialize cards now currentUser c r = [] := by
  unfold materialize
  rw [hpm, hfind]
  simp [hcid]

theorem materialize_cash {cards : List CreditCard} {now : Date}
    {currentUser : Option String} {c : Nat} {r : SaveRequest}
    (hcond : (r.paymentMethod == some PaymentMethod.CREDIT_CARD &&
      truthyStr r.cardId) = false) :
    materialize cards now currentUser c r = [cashRecord now currentUser c r] := by
  unfold materialize
  rw [hcond]
  simp

/-! ### Concrete inputs for witnesses and counterexamples -/

/-- A card with closing day 10 and due day 5, for concrete instantiations. -/
def wcard : CreditCard := ⟨"k10", "Card", 1000, 10, 5⟩

/-- The spec's end-to-end card: closing day 25, due day 5. -/
def wcard25 : CreditCard := ⟨"k25", "Nu", 1000, 25, 5⟩

/-! ### C1 -/

/-- C1: for a credit-card purchase without an invoice override, the starting
invoice month is the purchase month plus one when the purchase day-of-month is
on or after the card's closing day, and the purchase month unchanged
otherwise — both in the materializer's default computation and in the form's
candidate-invoice list. -/
theorem invoiceMonth_rule (p : Date) (cards : List CreditCard) (card : CreditCard)
    (cardId : String)
    (hfind : cards.find? (fun k => k.id == cardId) = some card)
    (hid : (cardId == "") = false) :
    (defaultStartMonth p card.closingDay).month =
      (if card.closingDay ≤ p.day then p.month + 1 else p.month) ∧
    (invoiceOptions cards PaymentMethod.CREDIT_CARD cardId p).head? =
      some ⟨(if card.closingDay ≤ p.day then p.month + 1 else p.month), 1⟩ := by
  constructor
  · unfold defaultStartMonth addMonths
    by_cases h : card.closingDay ≤ p.day <;> simp [h, ge_iff_le]
  · unfold invoiceOptions
    rw [hfind]
    have hd := daysInMonth_pos (p.month + 1)
    by_cases h : card.closingDay ≤ p.day <;>
      simp [hid, h, startOfMonth, addMonths, ge_iff_le, Nat.min_eq_left hd]

/-- C1 witness: with closing day 10, a purchase on day 9 of January 2024 keeps
its own invoice month. -/
theorem invoiceMonth_rule_witness :
    ([wcard].find? (fun k => k.id == "k10") = some wcard) ∧
    (("k10" : String) == "") = false ∧
    ((defaultStartMonth ⟨24288, 9⟩ wcard.closingDay).month =
        (if wcard.closingDay ≤ (9 : Nat) then 24288 + 1 else 24288) ∧
      (invoiceOptions [wcard] PaymentMethod.CREDIT_CARD "k10" ⟨24288, 9⟩).head? =
        some ⟨(if wcard.closingDay ≤ (9 : Nat) then 24288 + 1 else 24288), 1⟩) :=
  ⟨by decide, by decide,
    invoiceMonth_rule ⟨24288, 9⟩ [wcard] wcard "k10" (by decide) (by decide)⟩

/-! ### C10 -/

/-- A credit-card request whose `cardId` is the empty string. -/
def creq10 : SaveRequest :=
  { type := some TransactionType.EXPENSE, description := some "X",
    amount := some 50, date := some ⟨24288, 15⟩, status := none,
    paymentMethod := some PaymentMethod.CREDIT_CARD, cardId := some "",
    accountId := none, categoryId := none, installmentCount := some 3,
    isTotalValue := some true, targetInvoiceDate := none }

/-- C10: a credit-card create request whose `cardId` is absent or the empty
string falls through to the cash branch: exactly one record is appended,
stamped `CASH_DEBIT`, dated at the purchase date, with no installments. -/
theorem creditCard_empty_cardId_falls_to_cash (cards : List CreditCard)
    (now : Date) (currentUser : Option String) (c : Nat) (r : SaveRequest)
    (hpm : r.paymentMethod = some PaymentMethod.CREDIT_CARD)
    (hcid : r.cardId = none ∨ r.cardId = some "") :
    materialize cards now currentUser c r = [cashRecord now currentUser c r] ∧
    (cashRecord now currentUser c r).paymentMethod = PaymentMethod.CASH_DEBIT ∧
    (cashRecord now currentUser c r).date = r.date.getD now ∧
    (cashRecord now currentUser c r).installments = none := by
  refine ⟨?_, rfl, rfl, rfl⟩
  apply materialize_cash
  rcases hcid with h | h <;> simp [truthyStr, h]

/-- C10 witness: a concrete credit-card request with `cardId = some ""`. -/
theorem creditCard_empty_cardId_falls_to_cash_witness :
    (creq10.paymentMethod = some PaymentMethod.CREDIT_CARD ∧
      (creq10.cardId = none ∨ creq10.cardId = some "")) ∧
    (materialize [wcard] ⟨24288, 1⟩ (some "Jean") 0 creq10 =
        [cashRecord ⟨24288, 1⟩ (some "Jean") 0 creq10] ∧
      (cashRecord ⟨24288, 1⟩ (some "Jean") 0 creq10).paymentMethod =
        PaymentMethod.CASH_DEBIT ∧
      (cashRecord ⟨24288, 1⟩ (some "Jean") 0 creq10).date =
        creq10.date.getD ⟨24288, 1⟩ ∧
      (cashRecord ⟨24288, 1⟩ (some "Jean") 0 creq10).installments = none) :=
  ⟨⟨rfl, Or.inr rfl⟩,
    creditCard_empty_cardId_falls_to_cash [wcard] ⟨24288, 1⟩ (some "Jean") 0 creq10
      rfl (Or.inr rfl)⟩

/-! ### C2 -/

/-- The spec's end-to-end request: 900 total over 3 installments on the
closing-day-25 card, purchased 2024-01-26 (month index 24288 = 2024 * 12). -/
def creqTV : SaveRequest :=
  { type := some TransactionType.EXPENSE, description := some "TV",
    amount := some 900, date := some ⟨24288, 26⟩, status := none,
    paymentMethod := some PaymentMethod.CREDIT_CARD, cardId := some "k25",
    accountId := none, categoryId := none, installmentCount := some 3,
    isTotalValue := some true, targetInvoiceDate := none }

/-- C2: a credit-card request with a non-empty `cardId` appends exactly
`installmentCount` records when the card resolves, and leaves the ledger
unchanged when it does not. -/
theorem credit_materializer_count (cards : List CreditCard) (now : Date)
    (currentUser : Option String) (c : Nat) (r : SaveRequest)
    (prev : List Transaction) (s : String)
    (hpm : r.paymentMethod = some PaymentMethod.CREDIT_CARD)
    (hcid : r.cardId = some s) (hs : (s == "") = false) :
    ((cards.find? (fun card => some card.id == r.cardId)).isSome = true →
      (handleSaveTransactionAdd cards now currentUser c r prev).length =
        prev.length + r.installmentCount.getD 1) ∧
    (cards.find? (fun card => some card.id == r.cardId) = none →
      handleSaveTransactionAdd cards now currentUser c r prev = prev) := by
  have htr : truthyStr r.cardId = true := by simp [truthyStr, hcid, hs]
  constructor
  · intro hsome
    obtain ⟨card, hfind⟩ := Option.isSome_iff_exists.mp hsome
    unfold handleSaveTransactionAdd
    rw [materialize_credit_found hpm htr hfind]
    simp
  · intro hfind
    unfold handleSaveTransactionAdd
    rw [materialize_credit_notfound hpm htr hfind]
    simp

/-- C2 witness: the end-to-end request against the known card appends 3
records to an empty ledger; against a ledger knowing no such card it appends
none. -/
theorem credit_materializer_count_witness :
    (creqTV.paymentMethod = some PaymentMethod.CREDIT_CARD ∧
      creqTV.cardId = some "k25" ∧ (("k25" : String) == "") = false) ∧
    (handleSaveTransactionAdd [wcard25] ⟨24288, 1⟩ (some "Jean") 0 creqTV []).length =
      List.length ([] : List Transaction) + creqTV.installmentCount.getD 1 ∧
    handleSaveTransactionAdd [wcard] ⟨24288, 1⟩ (some "Jean") 0 creqTV [] =
      ([] : List Transaction) :=
  ⟨⟨rfl, rfl, by decide⟩,
    (credit_materializer_count [wcard25] ⟨24288, 1⟩ (some "Jean") 0 creqTV []
      "k25" rfl rfl (by decide)).1 (by decide),
    (credit_materializer_count [wcard] ⟨24288, 1⟩ (some "Jean") 0 creqTV []
      "k25" rfl rfl (by decide)).2 (by decide)⟩

/-! ### C4 -/

/-- C4: in TOTAL mode every emitted installment carries `totalAmount / N`
(plain division) and the amounts sum back to `totalAmount`; in PER_INSTALLMENT
mode every installment carries `totalAmount` verbatim and the amounts sum to
`N * totalAmount`. -/
theorem installment_amounts (cards : List CreditCard) (now : Date)
    (currentUser : Option String) (c : Nat) (r : SaveRequest) (s : String)
    (card : CreditCard)
    (hpm : r.paymentMethod = some PaymentMethod.CREDIT_CARD)
    (hcid : r.cardId = some s) (hs : (s == "") = false)
    (hfind : cards.find? (fun card => some card.id == r.cardId) = some card)
    (hn : 1 ≤ r.installmentCount.getD 1) :
    (materialize cards now currentUser c r).map Transaction.amount =
      List.replicate (r.installmentCount.getD 1)
        (if r.isTotalValue.getD true
          then r.amount.getD 0 / (r.installmentCount.getD 1 : ℚ)
          else r.amount.getD 0) ∧
    ((materialize cards now currentUser c r).map Transaction.amount).sum =
      (if r.isTotalValue.getD true then r.amount.getD 0
        else (r.installmentCount.getD 1 : ℚ) * r.amount.getD 0) := by
  have htr : truthyStr r.cardId = true := by simp [truthyStr, hcid, hs]
  have hmap : (materialize cards now currentUser c r).map Transaction.amount =
      List.replicate (r.installmentCount.getD 1)
        (if r.isTotalValue.getD true
          then r.amount.getD 0 / (r.installmentCount.getD 1 : ℚ)
          else r.amount.getD 0) := by
    rw [materialize_credit_found hpm htr hfind, List.map_map]
    have : (Transaction.amount ∘
        installmentRecord card r (r.date.getD now)
          (r.status.getD TransactionStatus.COMPLETED) (currentUser.getD "Steffany")
          (if r.isTotalValue.getD true
            then r.amount.getD 0 / ((r.installmentCount.getD 1 : Nat) : ℚ)
            else r.amount.getD 0)
          (creditStartInvoiceDate card (r.date.getD now) r.targetInvoiceDate)
          (r.installmentCount.getD 1) c) =
        fun _ => (if r.isTotalValue.getD true
          then r.amount.getD 0 / ((r.installmentCount.getD 1 : Nat) : ℚ)
          else r.amount.getD 0) := by
      funext i
      simp [installmentRecord]
    rw [this, List.map_const', List.length_range]
  refine ⟨hmap, ?_⟩
  rw [hmap, List.sum_replicate, nsmul_eq_mul]
  have hne : ((r.installmentCount.getD 1 : Nat) : ℚ) ≠ 0 := by
    have h0 : r.installmentCount.getD 1 ≠ 0 := by omega
    exact_mod_cast h0
  by_cases hiv : r.isTotalValue.getD true = true
  · simp only [hiv, if_true]
    rw [mul_comm, div_mul_cancel₀ _ hne]
  · simp only [Bool.not_eq_true] at hiv
    simp [hiv]

/-- C4 witness: the end-to-end request (TOTAL mode, 900 over 3) yields three
amounts of 300 summing to 900. -/
theorem installment_amounts_witness :
    (creqTV.paymentMethod = some PaymentMethod.CREDIT_CARD ∧
      creqTV.cardId = some "k25" ∧ (("k25" : String) == "") = false ∧
      [wcard25].find? (fun card => some card.id == creqTV.cardId) = some wcard25 ∧
      1 ≤ creqTV.installmentCount.getD 1) ∧
    (materialize [wcard25] ⟨24288, 1⟩ (some "Jean") 0 creqTV).map Transaction.amount =
      List.replicate (creqTV.installmentCount.getD 1)
        (if creqTV.isTotalValue.getD true
          then creqTV.amount.getD 0 / (creqTV.installmentCount.getD 1 : ℚ)
          else creqTV.amount.getD 0) ∧
    ((materialize [wcard25] ⟨24288, 1⟩ (some "Jean") 0 creqTV).map
        Transaction.amount).sum =
      (if creqTV.isTotalValue.getD true then creqTV.amount.getD 0
        else (creqTV.installmentCount.getD 1 : ℚ) * creqTV.amount.getD 0) :=
  ⟨⟨rfl, rfl, by decide, by decide, by decide⟩,
    installment_amounts [wcard25] ⟨24288, 1⟩ (some "Jean") 0 creqTV "k25" wcard25
      rfl rfl (by decide) (by decide) (by decide)⟩

/-! ### C9 -/

/-- C9: on the credit path, `originalTransactionId` is a fresh id `c + 1`
assigned on the first installment only (`none` on every other one), the record
ids are `c, c + 2, c + 3, …`, and no record's `originalTransactionId` ever
equals that record's own id — in particular the first installment's does not. -/
theorem originalTransactionId_fresh (cards : List CreditCard) (now : Date)
    (currentUser : Option String) (c : Nat) (r : SaveRequest) (s : String)
    (card : CreditCard)
    (hpm : r.paymentMethod = some PaymentMethod.CREDIT_CARD)
    (hcid : r.cardId = some s) (hs : (s == "") = false)
    (hfind : cards.find? (fun card => some card.id == r.cardId) = some card) :
    (materialize cards now currentUser c r).map
        (fun t => t.installments.bind Installments.originalTransactionId) =
      (List.range (r.installmentCount.getD 1)).map
        (fun i => if i = 0 then some (c + 1) else none) ∧
    (materialize cards now currentUser c r).map Transaction.id =
      (List.range (r.installmentCount.getD 1)).map
        (fun i => if i = 0 then c else c + i + 1) ∧
    (materialize cards now currentUser c r).all
      (fun t => !(t.installments.bind Installments.originalTransactionId ==
        some t.id)) = true := by
  have htr : truthyStr r.cardId = true := by simp [truthyStr, hcid, hs]
  rw [materialize_credit_found hpm htr hfind]
  refine ⟨?_, ?_, ?_⟩
  · rw [List.map_map]
    apply List.map_congr_left
    intro i _
    by_cases h : i = 0 <;> simp [installmentRecord, h]
  · rw [List.map_map]
    apply List.map_congr_left
    intro i _
    by_cases h : i = 0 <;> simp [installmentRecord, h]
  · rw [List.all_eq_true]
    intro t ht
    obtain ⟨i, _, rfl⟩ := List.mem_map.mp ht
    by_cases h : i = 0 <;> simp [installmentRecord, h]

/-- C9 witness: on the end-to-end request with counter 0, the link ids are
`[some 1, none, none]`, the record ids `[0, 2, 3]`, and no record links to its
own id. -/
theorem originalTransactionId_fresh_witness :
    (creqTV.paymentMethod = some PaymentMethod.CREDIT_CARD ∧
      creqTV.cardId = some "k25" ∧ (("k25" : String) == "") = false ∧
      [wcard25].find? (fun card => some card.id == creqTV.cardId) = some wcard25) ∧
    ((materialize [wcard25] ⟨24288, 1⟩ (some "Jean") 0 creqTV).map
        (fun t => t.installments.bind Installments.originalTransactionId) =
      (List.range (creqTV.installmentCount.getD 1)).map
        (fun i => if i = 0 then some 1 else none) ∧
    (materialize [wcard25] ⟨24288, 1⟩ (some "Jean") 0 creqTV).map Transaction.id =
      (List.range (creqTV.installmentCount.getD 1)).map
        (fun i => if i = 0 then 0 else 0 + i + 1) ∧
    (materialize [wcard25] ⟨24288, 1⟩ (some "Jean") 0 creqTV).all
      (fun t => !(t.installments.bind Installments.originalTransactionId ==
        some t.id)) = true) :=
  ⟨⟨rfl, rfl, by decide, by decide⟩,
    originalTransactionId_fresh [wcard25] ⟨24288, 1⟩ (some "Jean") 0 creqTV "k25"
      wcard25 rfl rfl (by decide) (by decide)⟩

/-! ### C6 -/

/-- A single-installment credit purchase: 200 in one charge on the
closing-day-25 card (PER_INSTALLMENT mode). -/
def creq6 : SaveRequest :=
  { creqTV with
      installmentCount := some 1
      amount := some 200
      isTotalValue := some false }

/-- C6 counterexample: a credit-card purchase created with
`installmentCount = 1` still carries `installments` metadata
(`{current := 1, total := 1}` plus a fresh link id), contradicting the claim
that only multi-installment purchases do. -/
theorem installments_presence_cex :
    (materialize [wcard25] ⟨24288, 1⟩ (some "Jean") 0 creq6).map
        (fun t => t.installments) = [some ⟨1, 1, some 1⟩] ∧
    ¬ ((materialize [wcard25] ⟨24288, 1⟩ (some "Jean") 0 creq6).all
        (fun t => t.installments == none) = true) := by
  decide

/-- C6 amended: `installments` is present on every record the credit branch
emits — for any `installmentCount`, including 1 — and never on a record the
cash/income branch emits. -/
theorem installments_presence (cards : List CreditCard) (now : Date)
    (currentUser : Option String) (c : Nat) (r : SaveRequest) :
    ∀ t ∈ materialize cards now currentUser c r,
      (t.installments.isSome = true ↔
        (r.paymentMethod = some PaymentMethod.CREDIT_CARD ∧
          truthyStr r.cardId = true)) := by
  intro t ht
  by_cases hb : (r.paymentMethod == some PaymentMethod.CREDIT_CARD &&
      truthyStr r.cardId) = true
  · rw [Bool.and_eq_true, beq_iff_eq] at hb
    cases hfind : cards.find? (fun card => some card.id == r.cardId) with
    | none =>
        rw [materialize_credit_notfound hb.1 hb.2 hfind] at ht
        exact absurd ht (List.not_mem_nil t)
    | some card =>
        rw [materialize_credit_found hb.1 hb.2 hfind] at ht
        obtain ⟨i, _, rfl⟩ := List.mem_map.mp ht
        simp [installmentRecord, hb.1, hb.2]
  · rw [Bool.not_eq_true] at hb
    rw [materialize_cash hb] at ht
    rw [List.mem_singleton] at ht
    subst ht
    rw [Bool.and_eq_false_iff] at hb
    constructor
    · intro h
      exact absurd h (by simp [cashRecord])
    · rintro ⟨h1, h2⟩
      rcases hb with hb | hb
      · exact absurd hb (by simp [h1])
      · exact absurd hb (by simp [h2])

/-- The record the one-installment purchase `creq6` materializes to. -/
def wtx6 : Transaction :=
  { id := 0, description := "TV", amount := 200, type := TransactionType.EXPENSE,
    status := TransactionStatus.COMPLETED, date := ⟨24289, 5⟩,
    purchaseDate := ⟨24288, 26⟩, user := "Jean",
    paymentMethod := PaymentMethod.CREDIT_CARD, categoryId := none,
    accountId := none, cardId := some "k25",
    installments := some ⟨1, 1, some 1⟩ }

/-- C6 amended witness: the single record of the one-installment credit
purchase is emitted and carries `installments` metadata iff its request is a
credit one — and it is. -/
theorem installments_presence_witness :
    wtx6 ∈ materialize [wcard25] ⟨24288, 1⟩ (some "Jean") 0 creq6 ∧
    (wtx6.installments.isSome = true ↔
      (creq6.paymentMethod = some PaymentMethod.CREDIT_CARD ∧
        truthyStr creq6.cardId = true)) := by
  have hm : materialize [wcard25] ⟨24288, 1⟩ (some "Jean") 0 creq6 = [wtx6] := by
    decide
  constructor
  · rw [hm]
    exact List.mem_singleton.mpr rfl
  · exact installments_presence [wcard25] ⟨24288, 1⟩ (some "Jean") 0 creq6 wtx6
      (by rw [hm]; exact List.mem_singleton.mpr rfl)

/-! ### C3 -/

/-- C3 counterexample: starting from January 2025 (month index 24300) with
`dueDay = 30`, the second enumerated date is March 2 2025 (month 24302,
day 2) — JavaScript date normalization rolls (February, 30) over — so the
element is not `(month + 1, dueDay)`, its day is not the due day, and the
month step from element 0 is two, not one. -/
theorem enumerateDueDates_cex :
    enumerateDueDates ⟨24300, 30⟩ 30 2 = [⟨24300, 30⟩, ⟨24302, 2⟩] ∧
    ¬ ((enumerateDueDates ⟨24300, 30⟩ 30 2).all (fun d => d.day == 30) = true) := by
  decide

/-- C3 amended: when `dueDay ≤ 28` (so every target month contains it), the
enumeration yields exactly `count` dates, the 0-based element `i` is exactly
`(month of start + i, dueDay)`, the months advance by exactly one each step,
and every date's day-of-month is `dueDay`. -/
theorem enumerateDueDates_spec (start : Date) (dueDay : Nat) (count : Nat)
    (hd : dueDay ≤ 28) :
    (enumerateDueDates start dueDay count).length = count ∧
    enumerateDueDates start dueDay count =
      (List.range count).map (fun i => (⟨start.month + i, dueDay⟩ : Date)) ∧
    (enumerateDueDates start dueDay count).map Date.month =
      (List.range count).map (fun i => start.month + i) ∧
    (enumerateDueDates start dueDay count).all (fun d => d.day == dueDay) = true := by
  have key : enumerateDueDates start dueDay count =
      (List.range count).map (fun i => (⟨start.month + i, dueDay⟩ : Date)) := by
    unfold enumerateDueDates
    apply List.map_congr_left
    intro i _
    unfold dueDateOfInstallment addMonths
    exact mkDate_of_le (hd.trans (le_daysInMonth _))
  refine ⟨?_, key, ?_, ?_⟩
  · rw [key]
    simp
  · rw [key, List.map_map]
    rfl
  · rw [key, List.all_eq_true]
    intro d hmem
    obtain ⟨i, _, rfl⟩ := List.mem_map.mp hmem
    simp

/-- C3 amended witness: from February 2024 (month 24289) with due day 5,
three dates: the 5th of months 24289, 24290, 24291. -/
theorem enumerateDueDates_spec_witness :
    (5 : Nat) ≤ 28 ∧
    ((enumerateDueDates ⟨24289, 5⟩ 5 3).length = 3 ∧
      enumerateDueDates ⟨24289, 5⟩ 5 3 =
        (List.range 3).map (fun i => (⟨24289 + i, 5⟩ : Date)) ∧
      (enumerateDueDates ⟨24289, 5⟩ 5 3).map Date.month =
        (List.range 3).map (fun i => 24289 + i) ∧
      (enumerateDueDates ⟨24289, 5⟩ 5 3).all (fun d => d.day == 5) = true) :=
  ⟨by decide, enumerateDueDates_spec ⟨24289, 5⟩ 5 3 (by decide)⟩

/-! ### C8 -/

/-- C8: toggling a transaction's status keeps the ledger's length, leaves
every record with a different id untouched (status, amount, date and all
other fields), and on the matching record flips `PENDING ⇄ COMPLETED` while
keeping every other field. -/
theorem toggle_isolated (tid : Nat) (ts : List Transaction) :
    (handleToggleStatus tid ts).length = ts.length ∧
    ∀ i, ∀ h : i < ts.length, ∀ h2 : i < (handleToggleStatus tid ts).length,
      (ts[i].id ≠ tid → (handleToggleStatus tid ts)[i] = ts[i]) ∧
      (ts[i].id = tid →
        (handleToggleStatus tid ts)[i] =
          { ts[i] with status :=
              if ts[i].status = TransactionStatus.PENDING
              then TransactionStatus.COMPLETED
              else TransactionStatus.PENDING }) := by
  refine ⟨List.length_map ts _, ?_⟩
  intro i h h2
  constructor
  · intro hne
    simp only [handleToggleStatus, List.getElem_map]
    rw [if_neg hne]
  · intro heq
    simp only [handleToggleStatus, List.getElem_map]
    rw [if_pos heq]

/-- A pending record with id 1 used in the toggle witness. -/
def wt1 : Transaction :=
  { id := 1, description := "a", amount := 10, type := TransactionType.EXPENSE,
    status := TransactionStatus.PENDING, date := ⟨24289, 5⟩,
    purchaseDate := ⟨24288, 26⟩, user := "Jean",
    paymentMethod := PaymentMethod.CREDIT_CARD, categoryId := none,
    accountId := none, cardId := some "k25",
    installments := some ⟨1, 2, some 7⟩ }

/-- A sibling installment with id 2 used in the toggle witness. -/
def wt2 : Transaction :=
  { wt1 with id := 2 }

/-- C8 witness: toggling id 1 in `[wt1, wt2]` flips `wt1` to COMPLETED at
index 0 and leaves the sibling `wt2` untouched at index 1. -/
theorem toggle_isolated_witness :
    (handleToggleStatus 1 [wt1, wt2]).length = ([wt1, wt2] : List Transaction).length ∧
    (handleToggleStatus 1 [wt1, wt2]).get ⟨0, by simp [handleToggleStatus]⟩ =
      { ([wt1, wt2] : List Transaction).get ⟨0, by decide⟩ with status :=
          if (([wt1, wt2] : List Transaction).get ⟨0, by decide⟩).status =
            TransactionStatus.PENDING
          then TransactionStatus.COMPLETED else TransactionStatus.PENDING } ∧
    (handleToggleStatus 1 [wt1, wt2]).get ⟨1, by simp [handleToggleStatus]⟩ =
      ([wt1, wt2] : List Transaction).get ⟨1, by decide⟩ :=
  ⟨(toggle_isolated 1 [wt1, wt2]).1,
    ((toggle_isolated 1 [wt1, wt2]).2 0 (by decide)
      (by simp [handleToggleStatus])).2 (by decide),
    ((toggle_isolated 1 [wt1, wt2]).2 1 (by decide)
      (by simp [handleToggleStatus])).1 (by decide)⟩

/-! ### C5 -/

/-- C5: a create request submitted with `type = INCOME` or with
`paymentMethod = CASH_DEBIT` materializes to exactly one transaction whose
accounting date equals the purchase date, with no installments metadata,
regardless of the installment-count input, and without consulting the card
list (the result is the same for every card list).  Requests reach the
materializer through `submitForm`, which normalizes `type = INCOME` to the
cash payment method. -/
theorem cash_income_single_record (f : FormState) (r : SaveRequest)
    (cards cards' : List CreditCard) (now : Date) (currentUser : Option String)
    (c : Nat) (hsub : submitForm f = some r)
    (hty : f.type = TransactionType.INCOME ∨
      f.paymentMethod = PaymentMethod.CASH_DEBIT) :
    materialize cards now currentUser c r = [cashRecord now currentUser c r] ∧
    (cashRecord now currentUser c r).date = f.date ∧
    (cashRecord now currentUser c r).purchaseDate = f.date ∧
    (cashRecord now currentUser c r).installments = none ∧
    materialize cards now currentUser c r =
      materialize cards' now currentUser c r := by
  unfold submitForm at hsub
  split at hsub
  · exact absurd hsub (by simp)
  split at hsub
  · exact absurd hsub (by simp)
  injection hsub with hr
  have hcond : (r.paymentMethod == some PaymentMethod.CREDIT_CARD &&
      truthyStr r.cardId) = false := by
    rw [← hr]
    rcases hty with h | h
    · simp [h]
    · by_cases h2 : f.type = TransactionType.INCOME <;> simp [truthyStr, h, h2]
  have hdate : r.date = some f.date := by rw [← hr]
  refine ⟨materialize_cash hcond, by simp [cashRecord, hdate],
    by simp [cashRecord, hdate], rfl, ?_⟩
  rw [materialize_cash hcond, materialize_cash hcond]

/-- The form state used in the C5 witness: an INCOME entry typed while the
credit-card payment selector and an installment count of 4 are still set. -/
def wform5 : FormState :=
  { type := TransactionType.INCOME, description := "Salario",
    amount := some 100, date := ⟨24288, 5⟩,
    paymentMethod := PaymentMethod.CREDIT_CARD,
    status := TransactionStatus.COMPLETED, cardId := "k25", accountId := "acc1",
    categoryId := "", installments := 4, isTotalValue := true,
    targetInvoiceDate := none }

/-- The request `wform5` submits to. -/
def wreq5 : SaveRequest :=
  { type := some TransactionType.INCOME, description := some "Salario",
    amount := some 100, date := some ⟨24288, 5⟩,
    status := some TransactionStatus.COMPLETED,
    paymentMethod := some PaymentMethod.CASH_DEBIT, cardId := none,
    accountId := some "acc1", categoryId := none, installmentCount := some 4,
    isTotalValue := some true, targetInvoiceDate := none }

/-- C5 witness: the INCOME submission `wform5` (with installment count 4 left
in the form) yields a single cash record dated at the purchase date, whatever
the card list. -/
theorem cash_income_single_record_witness :
    (submitForm wform5 = some wreq5 ∧
      (wform5.type = TransactionType.INCOME ∨
        wform5.paymentMethod = PaymentMethod.CASH_DEBIT)) ∧
    (materialize [wcard25] ⟨24290, 1⟩ (some "Jean") 0 wreq5 =
        [cashRecord ⟨24290, 1⟩ (some "Jean") 0 wreq5] ∧
      (cashRecord ⟨24290, 1⟩ (some "Jean") 0 wreq5).date = wform5.date ∧
      (cashRecord ⟨24290, 1⟩ (some "Jean") 0 wreq5).purchaseDate = wform5.date ∧
      (cashRecord ⟨24290, 1⟩ (some "Jean") 0 wreq5).installments = none ∧
      materialize [wcard25] ⟨24290, 1⟩ (some "Jean") 0 wreq5 =
        materialize [] ⟨24290, 1⟩ (some "Jean") 0 wreq5) :=
  ⟨⟨by decide, Or.inl rfl⟩,
    cash_income_single_record wform5 wreq5 [wcard25] [] ⟨24290, 1⟩ (some "Jean") 0
      (by decide) (Or.inl rfl)⟩

/-! ### C7 -/

/-- Sum of the `amount` fields of a list of transactions. -/
def sumAmounts (l : List Transaction) : ℚ := (l.map Transaction.amount).sum

/-- Spec-side definition (for comparison with `summary`): projected income of
month M sums every transaction whose date falls in M with type INCOME. -/
def specIncomeProjected (ts : List Transaction) (M : Date) : ℚ :=
  sumAmounts (ts.filter fun t =>
    isSameMonth t.date M && (t.type == TransactionType.INCOME))

/-- Spec-side definition: projected expense of month M. -/
def specExpenseProjected (ts : List Transaction) (M : Date) : ℚ :=
  sumAmounts (ts.filter fun t =>
    isSameMonth t.date M && (t.type == TransactionType.EXPENSE))

/-- Spec-side definition: realized income of month M sums only the COMPLETED
transactions among those whose date falls in M with type INCOME. -/
def specIncomeReal (ts : List Transaction) (M : Date) : ℚ :=
  sumAmounts (ts.filter fun t =>
    isSameMonth t.date M &&
      (t.status == TransactionStatus.COMPLETED && t.type == TransactionType.INCOME))

/-- Spec-side definition: realized expense of month M. -/
def specExpenseReal (ts : List Transaction) (M : Date) : ℚ :=
  sumAmounts (ts.filter fun t =>
    isSameMonth t.date M &&
      (t.status == TransactionStatus.COMPLETED && t.type == TransactionType.EXPENSE))

theorem foldl_summaryStep (l : List Transaction) (acc : ℚ × ℚ × ℚ × ℚ) :
    l.foldl summaryStep acc =
      (acc.1 + sumAmounts (l.filter fun t =>
          t.status == TransactionStatus.COMPLETED &&
            t.type == TransactionType.INCOME),
       acc.2.1 + sumAmounts (l.filter fun t =>
          t.status == TransactionStatus.COMPLETED &&
            t.type == TransactionType.EXPENSE),
       acc.2.2.1 + sumAmounts (l.filter fun t => t.type == TransactionType.INCOME),
       acc.2.2.2 + sumAmounts (l.filter fun t => t.type == TransactionType.EXPENSE)) := by
  induction l generalizing acc with
  | nil => simp [sumAmounts]
  | cons t l ih =>
    rw [List.foldl_cons, ih]
    cases ht : t.type <;> cases hs : t.status <;>
      simp [summaryStep, sumAmounts, ht, hs, List.filter_cons, Prod.ext_iff,
        add_assoc]

theorem sumAmounts_perm {l l' : List Transaction} (h : l.Perm l') :
    sumAmounts l = sumAmounts l' :=
  (h.map Transaction.amount).sum_eq

theorem currentMonth_filter_perm (ts : List Transaction) (M : Date)
    (p : Transaction → Bool) :
    ((currentMonthTransactions ts M).filter p).Perm
      (ts.filter fun t => p t && isSameMonth t.date M) := by
  have h1 : ((currentMonthTransactions ts M).filter p).Perm
      (((ts.filter fun t => isSameMonth t.date M)).filter p) :=
    (List.mergeSort_perm _ _).filter p
  rw [List.filter_filter] at h1
  exact h1

/-- C7: the monthly summary is deterministic, satisfies
`balanceReal = incomeReal - expenseReal` exactly, its real components are the
sums over the month's COMPLETED income/expense transactions, and its
projected balance is the difference of the full month's income and expense
sums. -/
theorem summary_correct (ts : List Transaction) (M : Date) :
    summary ts M = summary ts M ∧
    (summary ts M).balanceReal =
      (summary ts M).incomeReal - (summary ts M).expenseReal ∧
    (summary ts M).incomeReal = specIncomeReal ts M ∧
    (summary ts M).expenseReal = specExpenseReal ts M ∧
    (summary ts M).balanceProjected =
      specIncomeProjected ts M - specExpenseProjected ts M := by
  have hbody : ∀ p : Transaction → Bool,
      sumAmounts ((currentMonthTransactions ts M).filter p) =
        sumAmounts (ts.filter fun t => p t && isSameMonth t.date M) :=
    fun p => sumAmounts_perm (currentMonth_filter_perm ts M p)
  refine ⟨rfl, rfl, ?_, ?_, ?_⟩
  · show ((currentMonthTransactions ts M).foldl summaryStep (0, 0, 0, 0)).1 =
      specIncomeReal ts M
    rw [foldl_summaryStep]
    simp only [zero_add]
    rw [hbody]
    unfold specIncomeReal
    congr 1
    exact List.filter_congr fun a _ => Bool.and_comm _ _
  · show ((currentMonthTransactions ts M).foldl summaryStep (0, 0, 0, 0)).2.1 =
      specExpenseReal ts M
    rw [foldl_summaryStep]
    simp only [zero_add]
    rw [hbody]
    unfold specExpenseReal
    congr 1
    exact List.filter_congr fun a _ => Bool.and_comm _ _
  · show ((currentMonthTransactions ts M).foldl summaryStep (0, 0, 0, 0)).2.2.1 -
      ((currentMonthTransactions ts M).foldl summaryStep (0, 0, 0, 0)).2.2.2 =
      specIncomeProjected ts M - specExpenseProjected ts M
    rw [foldl_summaryStep]
    simp only [zero_add]
    rw [hbody, hbody]
    unfold specIncomeProjected specExpenseProjected
    congr 1
    · congr 1
      exact List.filter_congr fun a _ => Bool.and_comm _ _
    · congr 1
      exact List.filter_congr fun a _ => Bool.and_comm _ _

end FinApp
